import Mathlib

/-!
Verification of the Bytecap workspace file-size monitor.

The development shallowly embeds the program's core pipeline:

* `formatBytes` — the byte-count pretty printer (`SizeFormatter`);
* `expandPathChars` / `expandPath` — explicit-path expansion (`PathResolver`);
* `scanEntries` / `buildInventory` / `getWorkspaceFiles` — the recursive
  directory walk over a filesystem snapshot and its error-handling shell
  (`DirectoryScanner`);
* `evaluateGroup` / `evaluateFile` / `checkFileSizeThresholds` — the
  threshold/warning classification (`ThresholdEvaluator`);
* `showThresholdAlert` / `timerFire` / `clearAllNotifications` — the
  per-identity alert escalation state machine of the presentation layer
  (`AlertEscalator`).

Machine numbers are modelled exactly: file sizes (from `stat`) are naturals,
and the threshold arithmetic — which divides by 100 — is carried out in `ℚ`,
matching the exact values of the JavaScript computations in scope.
-/

namespace Bytecap

/-! ### SizeFormatter -/

/-- The unit array of `formatBytes`: `const sizes = ["B", "KB", "MB", "GB"]`. -/
def sizes : List String := ["B", "KB", "MB", "GB"]

/-- The unit index `i = Math.floor(Math.log(bytes) / Math.log(1024))`, i.e. the
floor of the base-1024 logarithm, modelled exactly by `Nat.log`. -/
def unitIndex (bytes : Nat) : Nat := Nat.log 1024 bytes

/-- The unit component of the formatted string: `sizes[i]`.  An out-of-bounds
JavaScript array read yields `undefined`, which string concatenation renders
as the text `"undefined"`. -/
def unitOf (bytes : Nat) : String := (sizes.get? (unitIndex bytes)).getD "undefined"

/-- `formatBytes`: `"0 B"` for zero, otherwise
`parseFloat((bytes / 1024 ** i).toFixed(2)) + " " + sizes[i]`.  The mantissa
(`toFixed(2)` = rounding to two decimals) is modelled in exact rational
arithmetic. -/
def formatBytes (bytes : Nat) : String :=
  if bytes = 0 then "0 B"
  else toString ((round ((bytes : ℚ) / 1024 ^ unitIndex bytes * 100) : ℚ) / 100) ++
    " " ++ unitOf bytes

/-- JavaScript `s.endsWith(pat)`, modelled on the character lists. -/
def strEndsWith (s pat : String) : Bool := pat.data.isSuffixOf s.data

/-! ### Data model -/

/-- One successfully stat'd regular file (`FileInfo` in the source). -/
structure FileInfo where
  name : String
  size : Nat
  sizeFormatted : String
deriving DecidableEq

/-- The inventory built by a scan (`DirectoryInfo` in the source). -/
structure DirectoryInfo where
  files : List FileInfo
  totalSize : Nat
  totalSizeFormatted : String
  scanPath : String
  caidoFiles : List FileInfo
  caidoTotalSize : Nat
  caidoTotalSizeFormatted : String
deriving DecidableEq

/-! ### ThresholdEvaluator -/

/-- `const thresholdBytes = thresholdMB * 1024 * 1024`. -/
def thresholdBytesOf (thresholdMB : ℚ) : ℚ := thresholdMB * 1024 * 1024

/-- `const warningThreshold = (thresholdBytes * percentage) / 100` — exact
division, no rounding. -/
def warningBand (thresholdBytes percentage : ℚ) : ℚ := thresholdBytes * percentage / 100

/-- The `for (const percentage of warningPercentages) { ... break }` loop:
the first percentage whose band the size meets or exceeds, if any. -/
def firstMatchingWarning (thresholdBytes : ℚ) (size : Nat) : List ℚ → Option ℚ
  | [] => none
  | percentage :: rest =>
    if (size : ℚ) ≥ warningBand thresholdBytes percentage then some percentage
    else firstMatchingWarning thresholdBytes size rest

/-- A message pushed to the `alerts` array or to the `warnings` array
(each push is mirrored by a `bytecap:threshold-alert` event of severity
`"error"` respectively `"warning"`). -/
inductive Notification where
  | alert (message : String)
  | warning (message : String)
deriving DecidableEq

def caidoAlertMessage (directoryInfo : DirectoryInfo) (thresholdMB : ℚ) : String :=
  "Combined .caido files (" ++ directoryInfo.caidoTotalSizeFormatted ++ ") exceed " ++
    toString thresholdMB ++ "MB threshold"

def caidoWarningMessage (directoryInfo : DirectoryInfo) (thresholdMB percentage : ℚ) : String :=
  "Combined .caido files (" ++ directoryInfo.caidoTotalSizeFormatted ++ ") are at " ++
    toString percentage ++ "% of " ++ toString thresholdMB ++ "MB threshold"

def fileAlertMessage (file : FileInfo) (thresholdMB : ℚ) : String :=
  "File \"" ++ file.name ++ "\" (" ++ file.sizeFormatted ++ ") exceeds " ++
    toString thresholdMB ++ "MB threshold"

def fileWarningMessage (file : FileInfo) (thresholdMB percentage : ℚ) : String :=
  "File \"" ++ file.name ++ "\" (" ++ file.sizeFormatted ++ ") is at " ++
    toString percentage ++ "% of " ++ toString thresholdMB ++ "MB threshold"

/-- The combined `.caido` branch of `checkFileSizeThresholds` (lines 177-201 of
the backend): guarded by `caidoFiles.length > 0`; alert when the combined total
meets the threshold, otherwise — warnings enabled — the first matching warning
band; at most one notification for the group. -/
def evaluateGroup (directoryInfo : DirectoryInfo) (thresholdMB : ℚ)
    (enableWarnings : Bool) (warningPercentages : List ℚ) : Option Notification :=
  let thresholdBytes := thresholdBytesOf thresholdMB
  if directoryInfo.caidoFiles.length > 0 then
    if (directoryInfo.caidoTotalSize : ℚ) ≥ thresholdBytes then
      some (Notification.alert (caidoAlertMessage directoryInfo thresholdMB))
    else if enableWarnings then
      match firstMatchingWarning thresholdBytes directoryInfo.caidoTotalSize warningPercentages with
      | some percentage =>
        some (Notification.warning (caidoWarningMessage directoryInfo thresholdMB percentage))
      | none => none
    else none
  else none

/-- The per-file branch of `checkFileSizeThresholds` (lines 204-230): only
files whose name does not end in `.caido`, identical alert-then-first-warning
logic applied to the standalone size. -/
def evaluateFile (file : FileInfo) (thresholdMB : ℚ)
    (enableWarnings : Bool) (warningPercentages : List ℚ) : Option Notification :=
  let thresholdBytes := thresholdBytesOf thresholdMB
  if ¬ strEndsWith file.name ".caido" then
    if (file.size : ℚ) ≥ thresholdBytes then
      some (Notification.alert (fileAlertMessage file thresholdMB))
    else if enableWarnings then
      match firstMatchingWarning thresholdBytes file.size warningPercentages with
      | some percentage =>
        some (Notification.warning (fileWarningMessage file thresholdMB percentage))
      | none => none
    else none
  else none

/-- Contents of the `alerts` array: the alert pushes, in entity order. -/
def alertMessages (results : List (Option Notification)) : List String :=
  results.filterMap fun r =>
    match r with
    | some (Notification.alert message) => some message
    | _ => none

/-- Contents of the `warnings` array: the warning pushes, in entity order. -/
def warningMessages (results : List (Option Notification)) : List String :=
  results.filterMap fun r =>
    match r with
    | some (Notification.warning message) => some message
    | _ => none

/-- `checkFileSizeThresholds(sdk, directoryInfo, thresholdMB, enableWarnings,
warningPercentages = [75, 90])`, returning `{ alerts, warnings }`: the grouped
check runs first, then every file is evaluated independently in list order;
each push to an array is modelled by collecting each entity's (at most one)
notification. -/
def checkFileSizeThresholds (directoryInfo : DirectoryInfo) (thresholdMB : ℚ)
    (enableWarnings : Bool) (warningPercentages : List ℚ) : List String × List String :=
  let results := evaluateGroup directoryInfo thresholdMB enableWarnings warningPercentages ::
    directoryInfo.files.map fun file =>
      evaluateFile file thresholdMB enableWarnings warningPercentages
  (alertMessages results, warningMessages results)

/-! ### DirectoryScanner -/

/-- A snapshot of the filesystem subtree below the scan root.  `statOk` models
whether `stat` on the file succeeds (on failure the file is silently skipped);
`listOk` models whether `readdir` on a directory succeeds (on failure the whole
subtree is silently skipped). -/
inductive FsEntry where
  | file (name : String) (size : Nat) (statOk : Bool)
  | dir (name : String) (listOk : Bool) (entries : List FsEntry)

/-- `const displayName = relativePath ? relativePath + "/" + entry.name :
entry.name` — the empty string is falsy. -/
def displayNameOf (relativePath name : String) : String :=
  if relativePath = "" then name else relativePath ++ "/" ++ name

/-- The recursive `scanDirectory` walk: the files pushed, in depth-first
encounter order, together with the `totalSize` accumulator. -/
def scanEntries (relativePath : String) : List FsEntry → List FileInfo × Nat
  | [] => ([], 0)
  | FsEntry.file name size statOk :: rest =>
    let r := scanEntries relativePath rest
    if statOk then
      (⟨displayNameOf relativePath name, size, formatBytes size⟩ :: r.1, size + r.2)
    else r
  | FsEntry.dir name listOk entries :: rest =>
    let sub := if listOk then scanEntries (displayNameOf relativePath name) entries else ([], 0)
    let r := scanEntries relativePath rest
    (sub.1 ++ r.1, sub.2 + r.2)

/-- `files.sort((a, b) => b.size - a.size)`: stable sort, size descending. -/
def sortBySizeDesc (files : List FileInfo) : List FileInfo :=
  files.mergeSort fun a b => decide (b.size ≤ a.size)

/-- The inventory assembled after the walk: sort by size descending, filter the
`.caido` subgroup, `reduce` its combined size. -/
def buildInventory (scanPath : String) (entries : List FsEntry) : DirectoryInfo :=
  let scanned := scanEntries "" entries
  let files := sortBySizeDesc scanned.1
  let caidoFiles := files.filter fun file => strEndsWith file.name ".caido"
  let caidoTotalSize := caidoFiles.foldl (fun total file => total + file.size) 0
  { files := files
    totalSize := scanned.2
    totalSizeFormatted := formatBytes scanned.2
    scanPath := scanPath
    caidoFiles := caidoFiles
    caidoTotalSize := caidoTotalSize
    caidoTotalSizeFormatted := formatBytes caidoTotalSize }

/-! ### PathResolver -/

/-- Javascript `String.prototype.trim`: strip whitespace from both ends. -/
def trimChars (s : List Char) : List Char :=
  ((s.dropWhile Char.isWhitespace).reverse.dropWhile Char.isWhitespace).reverse

/-- `path.replace(/\\\\ /g, " ")`: the regex literal contains four backslash
characters, so its pattern is two literal backslashes followed by a space;
every non-overlapping occurrence, scanned left to right, is replaced by a
single space. -/
def unescapeSpaces : List Char → List Char
  | '\\' :: '\\' :: ' ' :: rest => ' ' :: unescapeSpaces rest
  | c :: rest => c :: unescapeSpaces rest
  | [] => []

/-- The replacement described by the source comment ("Remove backslashes used
to escape spaces") and by the spec: the two-character sequence backslash-space
becomes a plain space. -/
def replaceEscapedSpacesSpec : List Char → List Char
  | '\\' :: ' ' :: rest => ' ' :: replaceEscapedSpacesSpec rest
  | c :: rest => c :: replaceEscapedSpacesSpec rest
  | [] => []

/-- `expandPath`: trim, then expand a leading `~` (JavaScript
`path.replace("~", home)` replaces only the first occurrence, which under the
`startsWith("~")` guard is the leading character), then un-escape spaces. -/
def expandPathChars (home inputPath : List Char) : List Char :=
  let path := trimChars inputPath
  let path1 := if path.head? = some '~' then home ++ path.tail else path
  unescapeSpaces path1

/-- String-level wrapper for `expandPath`. -/
def expandPath (home inputPath : String) : String :=
  String.mk (expandPathChars home.data inputPath.data)

/-! ### getWorkspaceFiles -/

/-- `os.platform()` outcomes distinguished by `getCaidoProjectsDir`. -/
inductive Platform where
  | darwin
  | linux
  | win32
  | other
deriving DecidableEq

/-- The OS-specific default Caido projects directory. -/
def getCaidoProjectsDir (platform : Platform) (home : String) : String :=
  match platform with
  | Platform.darwin => home ++ "/Library/Application Support/io.caido.Caido/projects"
  | Platform.linux => home ++ "/.local/share/caido/projects"
  | Platform.win32 => home ++ "/caido/Caido/data/projects"
  | Platform.other => home ++ "/projects"

/-- The empty inventory returned on every degraded path, with the given
`scanPath` (`""` for a missing project, the attempted path for a missing root,
`"error"` for a top-level failure). -/
def emptyDirectoryInfo (scanPath : String) : DirectoryInfo :=
  { files := []
    totalSize := 0
    totalSizeFormatted := "0 B"
    scanPath := scanPath
    caidoFiles := []
    caidoTotalSize := 0
    caidoTotalSizeFormatted := "0 B" }

/-- The environment `getWorkspaceFiles` runs in: the host SDK (current
project, plugin path), the operating system (platform, home directory), and a
snapshot of the filesystem (`pathOk` models `pathExists`; `listing` gives the
subtree below an existing root).  `topLevelFailure` models an exception thrown
anywhere inside the top-level `try` body and caught by its `catch`. -/
structure ScanWorld where
  platform : Platform
  home : String
  currentProject : Option String
  pluginPath : String
  pathOk : String → Bool
  listing : String → List FsEntry
  topLevelFailure : Bool

/-- The final `pathExists` check followed by the walk: a missing root yields
the empty inventory tagged with the attempted path. -/
def scanRoot (w : ScanWorld) (path : String) : DirectoryInfo :=
  if w.pathOk path then buildInventory path (w.listing path) else emptyDirectoryInfo path

/-- The no-explicit-path branch: no current project short-circuits to the
empty inventory; otherwise the composed project directory is used when it
exists, else the plugin path. -/
def defaultPathScan (w : ScanWorld) : DirectoryInfo :=
  match w.currentProject with
  | none => emptyDirectoryInfo ""
  | some projectId =>
    let projectDir := getCaidoProjectsDir w.platform w.home ++ "/" ++ projectId
    let path := if w.pathOk projectDir then projectDir else w.pluginPath
    scanRoot w path

/-- `getWorkspaceFiles(sdk, workspacePath?)`: a non-empty explicit path is
expanded and scanned; otherwise the default-path branch runs.  The function
is total — every failure mode returns an empty inventory instead of raising. -/
def getWorkspaceFiles (w : ScanWorld) (workspacePath : Option String) : DirectoryInfo :=
  if w.topLevelFailure then emptyDirectoryInfo "error"
  else
    match workspacePath with
    | some wp =>
      if wp.length > 0 then scanRoot w (expandPath w.home wp)
      else defaultPathScan w
    | none => defaultPathScan w

/-! ### AlertEscalator (frontend `App.vue`) -/

/-- A `bytecap:threshold-alert` payload. -/
structure ThresholdAlert where
  type : String
  message : String
deriving DecidableEq

/-- `const alertKey = alert.type + ":" + alert.message` — the alert identity. -/
def alertKey (alert : ThresholdAlert) : String := alert.type ++ ":" ++ alert.message

/-- One entry of the `alertCounters` map: the occurrence counter and whether a
repeat `setInterval` timer is currently armed (`intervalId` defined). -/
structure Counter where
  count : Nat
  intervalArmed : Bool
deriving DecidableEq

/-- The escalator's mutable state.  `displayLog` is a ghost log recording each
`confirm(...)` dialog as (identity, occurrence number); it is appended to and
never consulted by the transitions. -/
structure AppState where
  ignoredAlerts : List String
  alertCounters : List (String × Counter)
  flashBanner : Option ThresholdAlert
  displayLog : List (String × Nat)
deriving DecidableEq

/-- The component's initial state: no suppressions, no counters, no banner. -/
def initialAppState : AppState :=
  { ignoredAlerts := [], alertCounters := [], flashBanner := none, displayLog := [] }

/-- `Set.prototype.add`: insert the key if absent. -/
def insertKey (l : List String) (key : String) : List String :=
  if key ∈ l then l else l ++ [key]

/-- `alertCounters.get(key)`: the first entry with the given key, if any. -/
def lookupCounter : List (String × Counter) → String → Option Counter
  | [], _ => none
  | kv :: rest, key => if kv.1 == key then some kv.2 else lookupCounter rest key

/-- `alertCounters.set(key, c)`: replace the entry, or append a new one. -/
def replaceCounter : List (String × Counter) → String → Counter → List (String × Counter)
  | [], key, c => [(key, c)]
  | kv :: rest, key, c =>
    if kv.1 == key then (key, c) :: rest else kv :: replaceCounter rest key c

/-- `clearInterval(counter.intervalId); delete counter.intervalId`. -/
def disarmCounter (l : List (String × Counter)) (key : String) : List (String × Counter) :=
  match lookupCounter l key with
  | some c => replaceCounter l key ⟨c.count, false⟩
  | none => l

/-- `counter.intervalId = setInterval(...)`. -/
def armCounter (l : List (String × Counter)) (key : String) : List (String × Counter) :=
  match lookupCounter l key with
  | some c => replaceCounter l key ⟨c.count, true⟩
  | none => l

/-- The inner `showSingleAlert(alertNumber)`: pop the `confirm` dialog (logged
as a display); on Cancel mark the identity ignored and cancel its timer; on OK
show the flash banner for occurrence 1 only.  `userAccepts` is the user's
response to this dialog. -/
def showSingleAlert (s : AppState) (alert : ThresholdAlert) (alertNumber : Nat)
    (userAccepts : Bool) : AppState :=
  let s1 := { s with displayLog := s.displayLog ++ [(alertKey alert, alertNumber)] }
  if userAccepts then
    if alertNumber = 1 then { s1 with flashBanner := some alert } else s1
  else
    { s1 with
      ignoredAlerts := insertKey s1.ignoredAlerts (alertKey alert)
      alertCounters := disarmCounter s1.alertCounters (alertKey alert) }

/-- `showThresholdAlert(alert)`: return immediately for an ignored identity;
otherwise initialise the counter if absent, set its count to 1, display
occurrence 1, and — unless that display was cancelled — arm the repeat
timer. -/
def showThresholdAlert (s : AppState) (alert : ThresholdAlert) (userAccepts : Bool) : AppState :=
  if alertKey alert ∈ s.ignoredAlerts then s
  else
    let s1 :=
      match lookupCounter s.alertCounters (alertKey alert) with
      | some _ => s
      | none =>
        { s with alertCounters := replaceCounter s.alertCounters (alertKey alert) ⟨0, false⟩ }
    let armed0 :=
      ((lookupCounter s1.alertCounters (alertKey alert)).map Counter.intervalArmed).getD false
    let s2 :=
      { s1 with alertCounters := replaceCounter s1.alertCounters (alertKey alert) ⟨1, armed0⟩ }
    let s3 := showSingleAlert s2 alert 1 userAccepts
    if alertKey alert ∈ s3.ignoredAlerts then s3
    else { s3 with alertCounters := armCounter s3.alertCounters (alertKey alert) }

/-- One fire of the armed `setInterval` callback for `alert`'s identity.  A
fire can only happen while a timer is armed (otherwise the state is returned
unchanged — `clearInterval` guarantees no further callbacks).  The callback
first re-checks suppression, then increments the counter, displays, and after
the third occurrence cancels the timer. -/
def timerFire (s : AppState) (alert : ThresholdAlert) (userAccepts : Bool) : AppState :=
  match lookupCounter s.alertCounters (alertKey alert) with
  | none => s
  | some counter =>
    if counter.intervalArmed = false then s
    else if alertKey alert ∈ s.ignoredAlerts then
      { s with alertCounters := disarmCounter s.alertCounters (alertKey alert) }
    else
      let newCount := counter.count + 1
      let s1 :=
        { s with
          alertCounters := replaceCounter s.alertCounters (alertKey alert) ⟨newCount, true⟩ }
      let s2 := showSingleAlert s1 alert newCount userAccepts
      if newCount ≥ 3 then
        { s2 with alertCounters := disarmCounter s2.alertCounters (alertKey alert) }
      else s2

/-- `clearAllNotifications`: cancel all timers, drop every identity record and
the suppression set, dismiss the banner.  (The `alerts`/`warnings` display
lists it also resets live outside the escalator state.) -/
def clearAllNotifications (s : AppState) : AppState :=
  { ignoredAlerts := [], alertCounters := [], flashBanner := none, displayLog := s.displayLog }

/-! ### Helper lemmas -/

theorem firstMatchingWarning_eq_find (thresholdBytes : ℚ) (size : Nat) (ps : List ℚ) :
    firstMatchingWarning thresholdBytes size ps =
      ps.find? fun p => decide ((size : ℚ) ≥ warningBand thresholdBytes p) := by
  induction ps with
  | nil => rfl
  | cons p rest ih =>
    by_cases h : (size : ℚ) ≥ warningBand thresholdBytes p
    · simp [firstMatchingWarning, List.find?, h]
    · simp [firstMatchingWarning, List.find?, h, ih]

theorem firstMatchingWarning_eq_some_iff (thresholdBytes : ℚ) (size : Nat) (ps : List ℚ)
    (p : ℚ) :
    firstMatchingWarning thresholdBytes size ps = some p ↔
      ∃ l1 l2, ps = l1 ++ p :: l2 ∧ (size : ℚ) ≥ warningBand thresholdBytes p ∧
        ∀ q ∈ l1, (size : ℚ) < warningBand thresholdBytes q := by
  rw [firstMatchingWarning_eq_find, List.find?_eq_some]
  constructor
  · rintro ⟨hp, l1, l2, rfl, hl1⟩
    refine ⟨l1, l2, rfl, by simpa using hp, fun q hq => ?_⟩
    have := hl1 q hq
    simpa [not_le] using this
  · rintro ⟨l1, l2, rfl, hp, hl1⟩
    exact ⟨by simpa using hp, l1, l2, rfl, fun q hq => by simpa [not_le] using hl1 q hq⟩

theorem foldl_add_size (l : List FileInfo) (n : Nat) :
    l.foldl (fun total file => total + file.size) n = n + (l.map FileInfo.size).sum := by
  induction l generalizing n with
  | nil => simp
  | cons f rest ih => simp [List.foldl_cons, ih, Nat.add_assoc]

theorem scanEntries_totalSize (relativePath : String) (entries : List FsEntry) :
    (scanEntries relativePath entries).2 =
      ((scanEntries relativePath entries).1.map FileInfo.size).sum := by
  induction relativePath, entries using scanEntries.induct with
  | case1 rp => simp [scanEntries]
  | case2 rp name size rest ih => simp [scanEntries, ih]
  | case3 rp name size statOk rest h ih =>
    simp only [scanEntries]
    rw [if_neg h]
    exact ih
  | case4 rp name listOk entries rest ihSub ihRest =>
    by_cases h : listOk = true
    · simp [scanEntries, h, ihSub, ihRest]
    · simp [scanEntries, h, ihRest]

theorem sortBySizeDesc_perm (files : List FileInfo) :
    (sortBySizeDesc files).Perm files :=
  List.mergeSort_perm files _

/-! ### Claim theorems -/

/-- C2: the byte threshold is the megabyte input times 1024 times 1024 and
each warning band is `thresholdBytes * percentage / 100`, computed exactly in
`ℚ`; both boundary comparisons are `≥`, so an entity (the grouped total, or an
ungrouped file) whose size equals `thresholdBytes` exactly yields the alert —
and hence never a warning, each entity producing at most one notification. -/
theorem c2_exact_threshold_boundary_alert (directoryInfo : DirectoryInfo) (file : FileInfo)
    (thresholdMB p : ℚ) (enableWarnings : Bool) (warningPercentages : List ℚ)
    (hg : directoryInfo.caidoFiles.length > 0)
    (hgs : (directoryInfo.caidoTotalSize : ℚ) = thresholdMB * 1024 * 1024)
    (hf : strEndsWith file.name ".caido" = false)
    (hfs : (file.size : ℚ) = thresholdMB * 1024 * 1024) :
    thresholdBytesOf thresholdMB = thresholdMB * 1024 * 1024 ∧
    warningBand (thresholdBytesOf thresholdMB) p = thresholdMB * 1024 * 1024 * p / 100 ∧
    evaluateGroup directoryInfo thresholdMB enableWarnings warningPercentages =
      some (Notification.alert (caidoAlertMessage directoryInfo thresholdMB)) ∧
    evaluateFile file thresholdMB enableWarnings warningPercentages =
      some (Notification.alert (fileAlertMessage file thresholdMB)) := by
  have hgs' : (directoryInfo.caidoTotalSize : ℚ) ≥ thresholdBytesOf thresholdMB := by
    rw [thresholdBytesOf]; exact ge_of_eq hgs
  have hfs' : (file.size : ℚ) ≥ thresholdBytesOf thresholdMB := by
    rw [thresholdBytesOf]; exact ge_of_eq hfs
  refine ⟨rfl, rfl, ?_, ?_⟩
  · rw [evaluateGroup, if_pos hg, if_pos hgs']
  · rw [evaluateFile, if_pos (by simp [hf]), if_pos hfs']

/-- Witness for C2 at a concrete 10 MB threshold: a grouped total and an
ungrouped file of exactly 10485760 bytes each yield the alert. -/
theorem c2_witness :
    thresholdBytesOf 10 = 10 * 1024 * 1024 ∧
    warningBand (thresholdBytesOf 10) 75 = 10 * 1024 * 1024 * 75 / 100 ∧
    evaluateGroup
        { files := [⟨"a.caido", 10485760, "10 MB"⟩], totalSize := 10485760,
          totalSizeFormatted := "10 MB", scanPath := "/p",
          caidoFiles := [⟨"a.caido", 10485760, "10 MB"⟩], caidoTotalSize := 10485760,
          caidoTotalSizeFormatted := "10 MB" } 10 true [75, 90] =
      some (Notification.alert (caidoAlertMessage
        { files := [⟨"a.caido", 10485760, "10 MB"⟩], totalSize := 10485760,
          totalSizeFormatted := "10 MB", scanPath := "/p",
          caidoFiles := [⟨"a.caido", 10485760, "10 MB"⟩], caidoTotalSize := 10485760,
          caidoTotalSizeFormatted := "10 MB" } 10)) ∧
    evaluateFile ⟨"big.bin", 10485760, "10 MB"⟩ 10 true [75, 90] =
      some (Notification.alert (fileAlertMessage ⟨"big.bin", 10485760, "10 MB"⟩ 10)) :=
  c2_exact_threshold_boundary_alert _ _ 10 75 true [75, 90]
    (by decide) (by norm_num) (by decide) (by norm_num)

/-- C3: a file whose name ends in `.caido` is never evaluated by the
individual-file branch (no per-file notification regardless of its standalone
size); the grouped check runs only when the grouped subset is non-empty; and
`checkFileSizeThresholds` is the grouped result followed by each file
evaluated independently, in list order. -/
theorem c3_grouped_vs_individual_exclusivity (directoryInfo : DirectoryInfo) (file : FileInfo)
    (thresholdMB : ℚ) (enableWarnings : Bool) (warningPercentages : List ℚ)
    (hcaido : strEndsWith file.name ".caido" = true)
    (hempty : directoryInfo.caidoFiles = []) :
    evaluateFile file thresholdMB enableWarnings warningPercentages = none ∧
    evaluateGroup directoryInfo thresholdMB enableWarnings warningPercentages = none ∧
    checkFileSizeThresholds directoryInfo thresholdMB enableWarnings warningPercentages =
      (alertMessages (evaluateGroup directoryInfo thresholdMB enableWarnings warningPercentages ::
        directoryInfo.files.map fun f =>
          evaluateFile f thresholdMB enableWarnings warningPercentages),
       warningMessages (evaluateGroup directoryInfo thresholdMB enableWarnings warningPercentages ::
        directoryInfo.files.map fun f =>
          evaluateFile f thresholdMB enableWarnings warningPercentages)) := by
  refine ⟨?_, ?_, rfl⟩
  · rw [evaluateFile, if_neg (by simp [hcaido])]
  · rw [evaluateGroup, if_neg (by simp [hempty])]

/-- Witness for C3: a `.caido` file far above a 1 MB threshold produces no
individual notification, and an inventory with no `.caido` files produces no
grouped notification. -/
theorem c3_witness :
    evaluateFile ⟨"huge.caido", 999999999, "953.67 MB"⟩ 1 true [75, 90] = none ∧
    evaluateGroup (emptyDirectoryInfo "/p") 1 true [75, 90] = none ∧
    checkFileSizeThresholds (emptyDirectoryInfo "/p") 1 true [75, 90] =
      (alertMessages (evaluateGroup (emptyDirectoryInfo "/p") 1 true [75, 90] ::
        (emptyDirectoryInfo "/p").files.map fun f => evaluateFile f 1 true [75, 90]),
       warningMessages (evaluateGroup (emptyDirectoryInfo "/p") 1 true [75, 90] ::
        (emptyDirectoryInfo "/p").files.map fun f => evaluateFile f 1 true [75, 90])) :=
  c3_grouped_vs_individual_exclusivity (emptyDirectoryInfo "/p")
    ⟨"huge.caido", 999999999, "953.67 MB"⟩ 1 true [75, 90] (by decide) rfl

/-- Concrete inventory for the C1 scenario: one `.caido` file of 24117248
bytes, exactly 92% of a 25 MB threshold (25 * 1024 * 1024 * 92 / 100). -/
def fileC1 : FileInfo := ⟨"project.caido", 24117248, "23 MB"⟩

/-- The inventory holding `fileC1` alone. -/
def dC1 : DirectoryInfo :=
  { files := [fileC1]
    totalSize := 24117248
    totalSizeFormatted := "23 MB"
    scanPath := "/projects/p1"
    caidoFiles := [fileC1]
    caidoTotalSize := 24117248
    caidoTotalSizeFormatted := "23 MB" }

/-- C1, counterexample: with warnings enabled and percentages `[75, 90]`, a
grouped total at exactly 92% of a 25 MB threshold produces the 75% warning —
the list of warnings is the singleton 75% message, which differs from the 90%
message, so "only the 90% warning" is false. -/
theorem c1_counterexample :
    (checkFileSizeThresholds dC1 25 true [75, 90]).2 = [caidoWarningMessage dC1 25 75] ∧
    caidoWarningMessage dC1 25 75 ≠ caidoWarningMessage dC1 25 90 := by
  constructor
  · have hfm : firstMatchingWarning (thresholdBytesOf 25) dC1.caidoTotalSize [75, 90] =
        some 75 := by
      rw [firstMatchingWarning,
        if_pos (by norm_num [warningBand, thresholdBytesOf, dC1])]
    have hg : evaluateGroup dC1 25 true [75, 90] =
        some (Notification.warning (caidoWarningMessage dC1 25 75)) := by
      rw [evaluateGroup, if_pos (by decide), if_neg (by norm_num [thresholdBytesOf, dC1]),
        if_pos rfl, hfm]
    have hfile : evaluateFile fileC1 25 true [75, 90] = none := by
      rw [evaluateFile, if_neg (by decide)]
    rw [checkFileSizeThresholds]
    show warningMessages _ = _
    rw [show dC1.files = [fileC1] from rfl]
    simp [warningMessages, hg, hfile]
  · decide

/-- C1, amended: with warnings enabled and percentages supplied as `[75, 90]`,
an entity (the grouped total or an ungrouped file) at exactly 92% of
`thresholdBytes` (and hence below the threshold) receives exactly one warning,
namely the 75% warning — the first matching percentage in the supplied order —
not the 90% warning and not both. -/
theorem c1_first_match_75_fires (directoryInfo : DirectoryInfo) (file : FileInfo)
    (thresholdMB : ℚ)
    (ht : 0 < thresholdMB)
    (hg : directoryInfo.caidoFiles.length > 0)
    (hgs : (directoryInfo.caidoTotalSize : ℚ) = thresholdBytesOf thresholdMB * 92 / 100)
    (hf : strEndsWith file.name ".caido" = false)
    (hfs : (file.size : ℚ) = thresholdBytesOf thresholdMB * 92 / 100) :
    evaluateGroup directoryInfo thresholdMB true [75, 90] =
      some (Notification.warning (caidoWarningMessage directoryInfo thresholdMB 75)) ∧
    evaluateFile file thresholdMB true [75, 90] =
      some (Notification.warning (fileWarningMessage file thresholdMB 75)) := by
  have htB : 0 < thresholdBytesOf thresholdMB := by
    rw [thresholdBytesOf]; positivity
  have hlt : thresholdBytesOf thresholdMB * 92 / 100 < thresholdBytesOf thresholdMB := by
    linarith
  have hband : warningBand (thresholdBytesOf thresholdMB) 75 ≤
      thresholdBytesOf thresholdMB * 92 / 100 := by
    rw [warningBand]; linarith
  constructor
  · have hfm : firstMatchingWarning (thresholdBytesOf thresholdMB)
        directoryInfo.caidoTotalSize [75, 90] = some 75 := by
      rw [firstMatchingWarning, if_pos (by rw [hgs]; exact hband)]
    rw [evaluateGroup, if_pos hg, if_neg (by rw [hgs]; exact not_le.mpr hlt), if_pos rfl, hfm]
  · have hfm : firstMatchingWarning (thresholdBytesOf thresholdMB) file.size [75, 90] =
        some 75 := by
      rw [firstMatchingWarning, if_pos (by rw [hfs]; exact hband)]
    rw [evaluateFile, if_pos (by simp [hf]), if_neg (by rw [hfs]; exact not_le.mpr hlt),
      if_pos rfl, hfm]

/-- Witness for the amended C1 at a 25 MB threshold: grouped total and an
ungrouped file of 24117248 bytes (= 92%) each receive the 75% warning. -/
theorem c1_witness :
    evaluateGroup dC1 25 true [75, 90] =
      some (Notification.warning (caidoWarningMessage dC1 25 75)) ∧
    evaluateFile ⟨"big.bin", 24117248, "23 MB"⟩ 25 true [75, 90] =
      some (Notification.warning (fileWarningMessage ⟨"big.bin", 24117248, "23 MB"⟩ 25 75)) :=
  c1_first_match_75_fires dC1 ⟨"big.bin", 24117248, "23 MB"⟩ 25 (by norm_num) (by decide)
    (by norm_num [thresholdBytesOf, dC1]) (by decide) (by norm_num [thresholdBytesOf])

/-- C5: below the threshold with warnings enabled, the grouped entity's
warning is determined by the FIRST percentage, in caller-supplied order, whose
band the grouped total meets or exceeds (the iff characterises first-match);
the same rule applies to each ungrouped file independently; and the warnings
list never exceeds one entry per entity (grouped entity plus each file). -/
theorem c5_first_match_single_warning (directoryInfo : DirectoryInfo) (file : FileInfo)
    (thresholdMB p : ℚ) (warningPercentages : List ℚ) (enableWarnings : Bool)
    (hg : directoryInfo.caidoFiles.length > 0)
    (hlt : (directoryInfo.caidoTotalSize : ℚ) < thresholdBytesOf thresholdMB)
    (hf : strEndsWith file.name ".caido" = false)
    (hflt : (file.size : ℚ) < thresholdBytesOf thresholdMB) :
    evaluateGroup directoryInfo thresholdMB true warningPercentages =
      (firstMatchingWarning (thresholdBytesOf thresholdMB) directoryInfo.caidoTotalSize
        warningPercentages).map
        (fun q => Notification.warning (caidoWarningMessage directoryInfo thresholdMB q)) ∧
    (firstMatchingWarning (thresholdBytesOf thresholdMB) directoryInfo.caidoTotalSize
        warningPercentages = some p ↔
      ∃ l1 l2, warningPercentages = l1 ++ p :: l2 ∧
        (directoryInfo.caidoTotalSize : ℚ) ≥ warningBand (thresholdBytesOf thresholdMB) p ∧
        ∀ q ∈ l1,
          (directoryInfo.caidoTotalSize : ℚ) < warningBand (thresholdBytesOf thresholdMB) q) ∧
    evaluateFile file thresholdMB true warningPercentages =
      (firstMatchingWarning (thresholdBytesOf thresholdMB) file.size warningPercentages).map
        (fun q => Notification.warning (fileWarningMessage file thresholdMB q)) ∧
    (checkFileSizeThresholds directoryInfo thresholdMB enableWarnings warningPercentages).2.length ≤
      1 + directoryInfo.files.length := by
  refine ⟨?_, firstMatchingWarning_eq_some_iff _ _ _ _, ?_, ?_⟩
  · rw [evaluateGroup, if_pos hg, if_neg (not_le.mpr hlt), if_pos rfl]
    cases hfm : firstMatchingWarning (thresholdBytesOf thresholdMB)
        directoryInfo.caidoTotalSize warningPercentages with
    | none => rfl
    | some q => rfl
  · rw [evaluateFile, if_pos (by simp [hf]), if_neg (not_le.mpr hflt), if_pos rfl]
    cases hfm : firstMatchingWarning (thresholdBytesOf thresholdMB) file.size
        warningPercentages with
    | none => rfl
    | some q => rfl
  · rw [checkFileSizeThresholds]
    show (warningMessages _).length ≤ _
    calc (warningMessages _).length ≤ _ := List.length_filterMap_le _ _
    _ = 1 + directoryInfo.files.length := by simp [Nat.add_comm]

/-- Concrete file for the C5 witness: 9961472 bytes = 95% of a 10 MB
threshold. -/
def fileC5 : FileInfo := ⟨"p.caido", 9961472, "9.5 MB"⟩

/-- The inventory holding `fileC5` alone. -/
def dC5 : DirectoryInfo :=
  { files := [fileC5]
    totalSize := 9961472
    totalSizeFormatted := "9.5 MB"
    scanPath := "/projects/p5"
    caidoFiles := [fileC5]
    caidoTotalSize := 9961472
    caidoTotalSizeFormatted := "9.5 MB" }

/-- Witness for C5 at a 10 MB threshold with a grouped total and an ungrouped
file at 95% of the threshold beside percentages `[75, 90]`. -/
theorem c5_witness :
    evaluateGroup dC5 10 true [75, 90] =
      (firstMatchingWarning (thresholdBytesOf 10) dC5.caidoTotalSize [75, 90]).map
        (fun q => Notification.warning (caidoWarningMessage dC5 10 q)) ∧
    (firstMatchingWarning (thresholdBytesOf 10) dC5.caidoTotalSize [75, 90] = some 75 ↔
      ∃ l1 l2, [(75 : ℚ), 90] = l1 ++ (75 : ℚ) :: l2 ∧
        (dC5.caidoTotalSize : ℚ) ≥ warningBand (thresholdBytesOf 10) 75 ∧
        ∀ q ∈ l1, (dC5.caidoTotalSize : ℚ) < warningBand (thresholdBytesOf 10) q) ∧
    evaluateFile ⟨"doc.pdf", 9961472, "9.5 MB"⟩ 10 true [75, 90] =
      (firstMatchingWarning (thresholdBytesOf 10)
          (FileInfo.mk "doc.pdf" 9961472 "9.5 MB").size [75, 90]).map
        (fun q => Notification.warning (fileWarningMessage ⟨"doc.pdf", 9961472, "9.5 MB"⟩ 10 q)) ∧
    (checkFileSizeThresholds dC5 10 true [75, 90]).2.length ≤ 1 + dC5.files.length :=
  c5_first_match_single_warning dC5 ⟨"doc.pdf", 9961472, "9.5 MB"⟩ 10 75 [75, 90] true
    (by decide) (by norm_num [thresholdBytesOf, dC5]) (by decide)
    (by norm_num [thresholdBytesOf])

/-- C4: every inventory built by a scan satisfies `totalSize = Σ files.size`,
`caidoTotalSize = Σ caidoFiles.size`, `caidoFiles` is a sublist (hence a
subsequence, by identity) of `files`, and `caidoFiles` is exactly the subset
of `files` whose name ends in `.caido` — for every filesystem snapshot, hence
regardless of the walk's encounter order. -/
theorem c4_inventory_invariants (scanPath : String) (entries : List FsEntry) :
    (buildInventory scanPath entries).totalSize =
      ((buildInventory scanPath entries).files.map FileInfo.size).sum ∧
    (buildInventory scanPath entries).caidoTotalSize =
      ((buildInventory scanPath entries).caidoFiles.map FileInfo.size).sum ∧
    (buildInventory scanPath entries).caidoFiles.Sublist
      (buildInventory scanPath entries).files ∧
    (buildInventory scanPath entries).caidoFiles =
      (buildInventory scanPath entries).files.filter fun file =>
        strEndsWith file.name ".caido" := by
  refine ⟨?_, ?_, ?_, rfl⟩
  · show (scanEntries "" entries).2 = _
    rw [scanEntries_totalSize]
    exact (((sortBySizeDesc_perm (scanEntries "" entries).1).map FileInfo.size).sum_eq).symm
  · show List.foldl _ 0 _ = _
    rw [foldl_add_size]
    simp only [Nat.zero_add]
    rfl
  · exact List.filter_sublist _

/-- C6, divergence at the failing input: the source's regex literal
`/\\\\ /g` matches two backslashes followed by a space, so the terminal-style
escape `My\ Documents` (single backslash-space) — exactly what the source
comment and the spec say is un-escaped — passes through unchanged, while the
claimed replacement would give `My Documents`; only a doubled
backslash-backslash-space sequence is actually replaced.  Trimming and the
leading `~` expansion do behave as claimed. -/
theorem c6_escaped_space_divergence :
    expandPath "/home/user" "My\\ Documents" = "My\\ Documents" ∧
    String.mk (replaceEscapedSpacesSpec ("My\\ Documents").data) = "My Documents" ∧
    expandPath "/home/user" "My\\\\ Documents" = "My Documents" ∧
    expandPath "/home/user" " ~/work " = "/home/user/work" := by decide

/-- C7: every degraded path of `getWorkspaceFiles` returns an empty inventory
instead of raising — a top-level failure (the `catch`) yields the `"error"`
sentinel; no current project yields `scanPath = ""`; a non-existent explicit
root yields the attempted (expanded) path; and a missing project directory
whose plugin-path fallback also does not exist yields the attempted fallback
path.  Totality of `getWorkspaceFiles` is the never-raises guarantee. -/
theorem c7_quiet_degradation (w1 w2 w3 w4 : ScanWorld) (anyPath : Option String)
    (wp pid : String)
    (h1 : w1.topLevelFailure = true)
    (h2f : w2.topLevelFailure = false) (h2p : w2.currentProject = none)
    (h3f : w3.topLevelFailure = false) (h3wp : 0 < wp.length)
    (h3x : w3.pathOk (expandPath w3.home wp) = false)
    (h4f : w4.topLevelFailure = false) (h4p : w4.currentProject = some pid)
    (h4d : w4.pathOk (getCaidoProjectsDir w4.platform w4.home ++ "/" ++ pid) = false)
    (h4pp : w4.pathOk w4.pluginPath = false) :
    getWorkspaceFiles w1 anyPath = emptyDirectoryInfo "error" ∧
    getWorkspaceFiles w2 none = emptyDirectoryInfo "" ∧
    getWorkspaceFiles w3 (some wp) = emptyDirectoryInfo (expandPath w3.home wp) ∧
    getWorkspaceFiles w4 none = emptyDirectoryInfo w4.pluginPath := by
  refine ⟨?_, ?_, ?_, ?_⟩
  · rw [getWorkspaceFiles.eq_def, if_pos h1]
  · simp [getWorkspaceFiles, h2f, defaultPathScan, h2p]
  · simp [getWorkspaceFiles, h3f, h3wp, scanRoot, h3x]
  · simp [getWorkspaceFiles, h4f, defaultPathScan, h4p, scanRoot, h4d, h4pp]

/-- A world whose top-level `try` body throws. -/
def wDead : ScanWorld :=
  ⟨Platform.linux, "/home/u", none, "/plugin", fun _ => false, fun _ => [], true⟩

/-- A healthy world with no current project. -/
def wNoProj : ScanWorld :=
  ⟨Platform.linux, "/home/u", none, "/plugin", fun _ => false, fun _ => [], false⟩

/-- A healthy world with a current project but no path that exists. -/
def wNoDir : ScanWorld :=
  ⟨Platform.linux, "/home/u", some "p1", "/plugin", fun _ => false, fun _ => [], false⟩

/-- Witness for C7 on concrete worlds: the failure sentinel, the no-project
empty inventory, the missing explicit root, and the missing fallback. -/
theorem c7_witness :
    getWorkspaceFiles wDead none = emptyDirectoryInfo "error" ∧
    getWorkspaceFiles wNoProj none = emptyDirectoryInfo "" ∧
    getWorkspaceFiles wNoProj (some "~/x") = emptyDirectoryInfo (expandPath "/home/u" "~/x") ∧
    getWorkspaceFiles wNoDir none = emptyDirectoryInfo "/plugin" :=
  c7_quiet_degradation wDead wNoProj wNoProj wNoDir none "~/x" "p1" rfl rfl rfl rfl
    (by decide) rfl rfl rfl rfl rfl

theorem mem_insertKey_self (l : List String) (key : String) : key ∈ insertKey l key := by
  rw [insertKey]
  by_cases h : key ∈ l
  · rw [if_pos h]; exact h
  · rw [if_neg h]; simp

theorem lookupCounter_replaceCounter_self (l : List (String × Counter)) (key : String)
    (c : Counter) : lookupCounter (replaceCounter l key c) key = some c := by
  induction l with
  | nil => simp [replaceCounter, lookupCounter]
  | cons kv rest ih =>
    by_cases h : kv.1 == key
    · simp [replaceCounter, h, lookupCounter]
    · simp [replaceCounter, h, lookupCounter, ih]

theorem replaceCounter_replaceCounter (l : List (String × Counter)) (key : String)
    (c c' : Counter) :
    replaceCounter (replaceCounter l key c) key c' = replaceCounter l key c' := by
  induction l with
  | nil => simp [replaceCounter]
  | cons kv rest ih =>
    by_cases h : kv.1 == key
    · simp [replaceCounter, h]
    · simp [replaceCounter, h, ih]

theorem disarmCounter_replaceCounter (l : List (String × Counter)) (key : String)
    (c : Counter) :
    disarmCounter (replaceCounter l key c) key = replaceCounter l key ⟨c.count, false⟩ := by
  rw [disarmCounter, lookupCounter_replaceCounter_self]
  exact replaceCounter_replaceCounter l key c ⟨c.count, false⟩

/-- Cancelling the very first display: the identity goes into the suppression
set, its counter reads 1 with no armed timer, exactly one display happened,
and the banner is untouched. -/
theorem showThresholdAlert_cancel (s : AppState) (alert : ThresholdAlert)
    (h : alertKey alert ∉ s.ignoredAlerts) :
    showThresholdAlert s alert false =
      { ignoredAlerts := insertKey s.ignoredAlerts (alertKey alert)
        alertCounters := replaceCounter s.alertCounters (alertKey alert) ⟨1, false⟩
        flashBanner := s.flashBanner
        displayLog := s.displayLog ++ [(alertKey alert, 1)] } := by
  rw [showThresholdAlert.eq_def, if_neg h]
  cases hc : lookupCounter s.alertCounters (alertKey alert) with
  | none =>
    simp only [hc, lookupCounter_replaceCounter_self, Option.map_some, Option.getD_some,
      showSingleAlert, Bool.false_eq_true, if_false, replaceCounter_replaceCounter,
      disarmCounter_replaceCounter]
    rw [if_pos (mem_insertKey_self _ _)]
  | some c =>
    simp only [hc, Option.map_some, Option.getD_some, showSingleAlert, Bool.false_eq_true,
      if_false, disarmCounter_replaceCounter]
    rw [if_pos (mem_insertKey_self _ _)]

/-- A delivery for a suppressed identity returns the state unchanged. -/
theorem showThresholdAlert_suppressed (s : AppState) (alert : ThresholdAlert) (r : Bool)
    (h : alertKey alert ∈ s.ignoredAlerts) : showThresholdAlert s alert r = s := by
  rw [showThresholdAlert.eq_def, if_pos h]

/-- A timer fire for a suppressed identity displays nothing and keeps the
identity suppressed (it at most cancels the leftover timer). -/
theorem timerFire_suppressed (s : AppState) (alert : ThresholdAlert) (r : Bool)
    (h : alertKey alert ∈ s.ignoredAlerts) :
    (timerFire s alert r).displayLog = s.displayLog ∧
    (timerFire s alert r).ignoredAlerts = s.ignoredAlerts := by
  rw [timerFire.eq_def]
  cases hc : lookupCounter s.alertCounters (alertKey alert) with
  | none => exact ⟨rfl, rfl⟩
  | some c =>
    by_cases ha : c.intervalArmed = false
    · simp only [ha]
      exact ⟨rfl, rfl⟩
    · have ha' : c.intervalArmed = true := by simpa using ha
      simp [ha', h]

/-- Any non-suppressed delivery logs exactly one display, numbered 1. -/
theorem showThresholdAlert_displayLog (s : AppState) (alert : ThresholdAlert) (r : Bool)
    (h : alertKey alert ∉ s.ignoredAlerts) :
    (showThresholdAlert s alert r).displayLog = s.displayLog ++ [(alertKey alert, 1)] := by
  rw [showThresholdAlert.eq_def, if_neg h]
  cases hc : lookupCounter s.alertCounters (alertKey alert) with
  | none =>
    cases r with
    | false =>
      simp [showSingleAlert, armCounter, apply_ite AppState.displayLog]
    | true =>
      simp [showSingleAlert, armCounter, apply_ite AppState.displayLog]
  | some c =>
    cases r with
    | false =>
      simp [showSingleAlert, armCounter, apply_ite AppState.displayLog]
    | true =>
      simp [showSingleAlert, armCounter, apply_ite AppState.displayLog]

/-- C8: an alert identity delivered once to a fresh escalator, with every
dialog acknowledged (no opt-out), is displayed exactly three times — once
immediately on delivery and once per timer fire — after which the repeat timer
is disarmed and any number of further timer ticks leave the state unchanged,
so no fourth display ever occurs. -/
theorem c8_exactly_three_displays (alert : ThresholdAlert) (n : Nat) :
    (showThresholdAlert initialAppState alert true).displayLog = [(alertKey alert, 1)] ∧
    (timerFire (timerFire (showThresholdAlert initialAppState alert true) alert true) alert
        true).displayLog =
      [(alertKey alert, 1), (alertKey alert, 2), (alertKey alert, 3)] ∧
    lookupCounter
        (timerFire (timerFire (showThresholdAlert initialAppState alert true) alert true) alert
          true).alertCounters (alertKey alert) = some ⟨3, false⟩ ∧
    (fun s => timerFire s alert true)^[n]
        (timerFire (timerFire (showThresholdAlert initialAppState alert true) alert true) alert
          true) =
      timerFire (timerFire (showThresholdAlert initialAppState alert true) alert true) alert
        true := by
  have h1 : showThresholdAlert initialAppState alert true =
      ⟨[], [(alertKey alert, ⟨1, true⟩)], some alert, [(alertKey alert, 1)]⟩ := by
    simp [showThresholdAlert, initialAppState, lookupCounter, replaceCounter, showSingleAlert,
      armCounter]
  have h2 : timerFire (⟨[], [(alertKey alert, ⟨1, true⟩)], some alert,
      [(alertKey alert, 1)]⟩ : AppState) alert true =
      ⟨[], [(alertKey alert, ⟨2, true⟩)], some alert,
        [(alertKey alert, 1), (alertKey alert, 2)]⟩ := by
    simp [timerFire, lookupCounter, replaceCounter, showSingleAlert]
  have h3 : timerFire (⟨[], [(alertKey alert, ⟨2, true⟩)], some alert,
      [(alertKey alert, 1), (alertKey alert, 2)]⟩ : AppState) alert true =
      ⟨[], [(alertKey alert, ⟨3, false⟩)], some alert,
        [(alertKey alert, 1), (alertKey alert, 2), (alertKey alert, 3)]⟩ := by
    simp [timerFire, lookupCounter, replaceCounter, showSingleAlert, disarmCounter]
  have hfix : timerFire (⟨[], [(alertKey alert, ⟨3, false⟩)], some alert,
      [(alertKey alert, 1), (alertKey alert, 2), (alertKey alert, 3)]⟩ : AppState) alert true =
      ⟨[], [(alertKey alert, ⟨3, false⟩)], some alert,
        [(alertKey alert, 1), (alertKey alert, 2), (alertKey alert, 3)]⟩ := by
    simp [timerFire, lookupCounter]
  refine ⟨by rw [h1], by rw [h1, h2, h3], by rw [h1, h2, h3]; simp [lookupCounter], ?_⟩
  rw [h1, h2, h3]
  induction n with
  | zero => rfl
  | succ m ih =>
    rw [Function.iterate_succ_apply', ih]
    exact hfix

/-- C9: cancelling a display marks the identity ignored, with its repeat
timer cancelled and exactly that one display logged; from any state in which
an identity is ignored, a newly delivered alert with the same severity and
message is a no-op and a leftover scheduled timer fire displays nothing (and
keeps the identity ignored); only the global clear empties the suppression
set, after which the same identity displays again. -/
theorem c9_ignored_identity_suppressed (s0 s' : AppState) (alert : ThresholdAlert)
    (r r2 : Bool)
    (h0 : alertKey alert ∉ s0.ignoredAlerts)
    (h' : alertKey alert ∈ s'.ignoredAlerts) :
    alertKey alert ∈ (showThresholdAlert s0 alert false).ignoredAlerts ∧
    (lookupCounter (showThresholdAlert s0 alert false).alertCounters (alertKey alert)).map
        Counter.intervalArmed = some false ∧
    (showThresholdAlert s0 alert false).displayLog = s0.displayLog ++ [(alertKey alert, 1)] ∧
    showThresholdAlert s' alert r = s' ∧
    (timerFire s' alert r).displayLog = s'.displayLog ∧
    alertKey alert ∈ (timerFire s' alert r).ignoredAlerts ∧
    (clearAllNotifications s').ignoredAlerts = [] ∧
    (showThresholdAlert (clearAllNotifications s') alert r2).displayLog =
      s'.displayLog ++ [(alertKey alert, 1)] := by
  rw [showThresholdAlert_cancel s0 alert h0]
  refine ⟨mem_insertKey_self _ _, ?_, rfl, showThresholdAlert_suppressed s' alert r h',
    (timerFire_suppressed s' alert r h').1, ?_, rfl, ?_⟩
  · simp [lookupCounter_replaceCounter_self]
  · rw [(timerFire_suppressed s' alert r h').2]
    exact h'
  · rw [showThresholdAlert_displayLog (clearAllNotifications s') alert r2
      (by simp [clearAllNotifications])]
    rfl

/-- Concrete alert for the C9 witness. -/
def alertC9 : ThresholdAlert := ⟨"error", "over threshold"⟩

/-- The state right after the user cancels the first display of `alertC9`. -/
def sC9 : AppState := showThresholdAlert initialAppState alertC9 false

/-- Witness for C9 on a fresh escalator: cancel the first display, then check
the re-delivery no-op, the silent timer fire, and the post-clear redisplay. -/
theorem c9_witness :
    alertKey alertC9 ∈ (showThresholdAlert initialAppState alertC9 false).ignoredAlerts ∧
    (lookupCounter (showThresholdAlert initialAppState alertC9 false).alertCounters
        (alertKey alertC9)).map Counter.intervalArmed = some false ∧
    (showThresholdAlert initialAppState alertC9 false).displayLog =
      initialAppState.displayLog ++ [(alertKey alertC9, 1)] ∧
    showThresholdAlert sC9 alertC9 true = sC9 ∧
    (timerFire sC9 alertC9 true).displayLog = sC9.displayLog ∧
    alertKey alertC9 ∈ (timerFire sC9 alertC9 true).ignoredAlerts ∧
    (clearAllNotifications sC9).ignoredAlerts = [] ∧
    (showThresholdAlert (clearAllNotifications sC9) alertC9 true).displayLog =
      sC9.displayLog ++ [(alertKey alertC9, 1)] :=
  c9_ignored_identity_suppressed initialAppState sC9 alertC9 true true (by decide) (by decide)

/-- C10: `formatBytes` has a valid unit from `["B", "KB", "MB", "GB"]` exactly
for byte counts below 1024^4 (with 0 special-cased to `"0 B"`); from 1 TiB
upward the computed unit index is at least 4, the array lookup is out of
bounds (`none`), and the rendered unit is the JavaScript `undefined` text,
which is not a valid unit. -/
theorem c10_formatBytes_unit_overflow (bytes : Nat) :
    formatBytes 0 = "0 B" ∧
    (bytes ≠ 0 → bytes < 1024 ^ 4 →
      unitIndex bytes ≤ 3 ∧ unitOf bytes ∈ sizes ∧
      formatBytes bytes =
        toString ((round ((bytes : ℚ) / 1024 ^ unitIndex bytes * 100) : ℚ) / 100) ++ " " ++
          unitOf bytes) ∧
    (1024 ^ 4 ≤ bytes →
      4 ≤ unitIndex bytes ∧ sizes.get? (unitIndex bytes) = none ∧
      unitOf bytes = "undefined" ∧ "undefined" ∉ sizes) := by
  refine ⟨rfl, fun h0 hlt => ?_, fun hge => ?_⟩
  · have h4 : unitIndex bytes < 4 := Nat.log_lt_of_lt_pow h0 hlt
    refine ⟨Nat.lt_succ_iff.mp h4, ?_, by rw [formatBytes, if_neg h0]⟩
    have hcases : unitIndex bytes = 0 ∨ unitIndex bytes = 1 ∨ unitIndex bytes = 2 ∨
        unitIndex bytes = 3 := by omega
    rw [unitOf]
    rcases hcases with h | h | h | h <;> rw [h] <;> decide
  · have hpos : 0 < 1024 ^ 4 := by positivity
    have h0 : bytes ≠ 0 := by omega
    have h4 : 4 ≤ unitIndex bytes :=
      (Nat.pow_le_iff_le_log (by norm_num) h0).mp hge
    have hnone : sizes.get? (unitIndex bytes) = none := by
      refine List.get?_eq_none.mpr ?_
      simp only [sizes, List.length_cons, List.length_nil]
      omega
    exact ⟨h4, hnone, by rw [unitOf, hnone]; rfl, by decide⟩

/-- Witness for C10 at 5 bytes (valid unit) and at 1099511627776 = 1024^4
bytes (out-of-bounds unit). -/
theorem c10_witness :
    (unitIndex 5 ≤ 3 ∧ unitOf 5 ∈ sizes ∧
      formatBytes 5 =
        toString ((round ((5 : ℚ) / 1024 ^ unitIndex 5 * 100) : ℚ) / 100) ++ " " ++
          unitOf 5) ∧
    (4 ≤ unitIndex 1099511627776 ∧ sizes.get? (unitIndex 1099511627776) = none ∧
      unitOf 1099511627776 = "undefined" ∧ "undefined" ∉ sizes) :=
  ⟨(c10_formatBytes_unit_overflow 5).2.1 (by decide) (by decide),
   (c10_formatBytes_unit_overflow 1099511627776).2.2 (by decide)⟩

end Bytecap
